import Mathlib

/-!
Shallow embedding of the dynamic anaerobic-digestion CSTR model of
`qsdsan/sanunits/_anaerobic_reactors.py` (class `AnaerobicCSTR`), together
with proofs about its mass balances, pressure closures, state layout and
output-stream projection.

Numbers are embedded as exact rationals (`ℚ`); NumPy arrays as `List ℚ`;
Python `None` as `Option`; raised exceptions as `Except String`.
Side-effecting methods (which mutate fields such as `_q_gas`, `_P_gas`,
`_dstate`, or the output streams' buffers) are embedded as functions
returning the updated reactor / stream values.
-/

set_option maxHeartbeats 1000000
set_option linter.unusedVariables false

/-- NumPy slice assignment `buf[start : start + vals.length] = vals`
(well-shaped when `start + vals.length ≤ buf.length`). -/
def setSlice (buf : List ℚ) (start : ℕ) (vals : List ℚ) : List ℚ :=
  buf.take start ++ vals ++ buf.drop (start + vals.length)

/-- NumPy assignment `buf[-1] = v` (well-shaped when `buf ≠ []`). -/
def setLast (buf : List ℚ) (v : ℚ) : List ℚ :=
  buf.dropLast ++ [v]

/-- NumPy fancy-index assignment `buf[idx] = vals`. -/
def setIndices (buf : List ℚ) (idx : List ℕ) (vals : List ℚ) : List ℚ :=
  (idx.zip vals).foldl (fun b p => b.set p.1 p.2) buf

/-- Three-ary pointwise combination of lists (NumPy elementwise broadcasting
of three same-length arrays). -/
def zipWith3 (f : ℚ → ℚ → ℚ → ℚ) : List ℚ → List ℚ → List ℚ → List ℚ
  | a :: as, b :: bs, c :: cs => f a b c :: zipWith3 f as bs cs
  | _, _, _ => []

/-- NumPy `np.dot(M.T, v)`: entry `c` is `Σ_j M[j][c] * v[j]`; the result length is
the column count of `M` (its first row's length), matching `np.dot` on a
well-shaped matrix. -/
def matTvec (M : List (List ℚ)) (v : List ℚ) : List ℚ :=
  (List.range (M.headD []).length).map
    (fun c => (List.zipWith (fun row x => row.getD c 0 * x) M v).sum)

namespace QSDsan

/-- The external `CompiledComponents` collaborator (`self.components`), reduced
to the attributes the reactor code reads: the ordered component `IDs`, the
per-component arrays `i_mass` and `chem_MW`, and the H2O saturated-vapor
pressure function `Psat` (in Pa, a function of temperature). -/
structure Components where
  IDs : List String
  i_mass : List ℚ
  chem_MW : List ℚ
  H2O_Psat : ℚ → ℚ

/-- Python `len(self.components)`. -/
def Components.n_cmps (c : Components) : ℕ := c.IDs.length

/-- Python `self.components.index(ID)` for a component ID. -/
def Components.index (c : Components) (ID : String) : ℕ := c.IDs.indexOf ID

/-- The external kinetic-model collaborator (`CompiledProcesses`): ordered
biogas component IDs, the parameter-refresh function `params_eval` (whose
internal cached parameter state we pass explicitly as a `List ℚ`), the
stoichiometry evaluation `stoichio_eval` and the rate function
`rate_function` (both reading the refreshed parameter state). -/
structure KineticModel where
  _biogas_IDs : List String
  params_eval : List ℚ → List ℚ
  stoichio_eval : List ℚ → List (List ℚ)
  rate_function : List ℚ → List ℚ → List ℚ

/-- A dynamic `WasteStream`'s mutable numeric buffers: `state` and `dstate`
(each `None` until first allocated). -/
structure Stream where
  state : Option (List ℚ)
  dstate : Option (List ℚ)

/-- The `AnaerobicCSTR` object: configuration fields, caches and buffers,
with the same (underscored) backing-field names as the Python class. -/
structure AnaerobicCSTR where
  components : Components
  V_liq : ℚ
  V_gas : ℚ
  T : ℚ
  _P_gas : ℚ
  _P_atm : ℚ
  _k_p : ℚ
  _fixed_P_gas : Bool
  _f_retain : List ℚ
  _q_gas : ℚ
  _n_gas : Option ℕ
  _gas_cmp_idx : Option (List ℕ)
  _state_keys : Option (List String)
  _S_vapor : Option ℚ
  _model : Option KineticModel
  _concs : Option (List ℚ)
  _state : Option (List ℚ)
  _dstate : Option (List ℚ)

namespace AnaerobicCSTR

/-- Class attribute `_R = 8.3145e-2`, the universal gas constant in bar/M/K. -/
def _R : ℚ := 8.3145e-2

/-- Python truthiness of an optional float: `None` and `0` are falsy. -/
def truthy (x : Option ℚ) : Bool :=
  match x with
  | none => false
  | some v => v != 0

/-- Method `ideal_gas_law(self, p=None, S=None)`: `if p: return p/self._R/self.T`,
`elif S: return S*self._R*self.T` (falls through to `None` when both
arguments are falsy, e.g. both `None` or equal to `0`). -/
def ideal_gas_law (r : AnaerobicCSTR) (p S : Option ℚ) : Option ℚ :=
  if truthy p then some (p.getD 0 / _R / r.T)
  else if truthy S then some (S.getD 0 * _R * r.T)
  else none

/-- Method `p_vapor(self, convert_to_bar=True)`: saturated vapor pressure of H2O at
the operating temperature; `auom('Pa').conversion_factor('bar') = 1e-5`. -/
def p_vapor (r : AnaerobicCSTR) (convert_to_bar : Bool) : ℚ :=
  let p := r.components.H2O_Psat r.T
  if convert_to_bar then p * 1e-5 else p

/-- The `headspace_P` property getter: returns `self._P_gas`. -/
def headspace_P (r : AnaerobicCSTR) : ℚ := r._P_gas

/-- The `headspace_P` property setter: writes `self._P_gas`. -/
def headspace_P_set (r : AnaerobicCSTR) (P : ℚ) : AnaerobicCSTR :=
  { r with _P_gas := P }

/-- Modelled from the spec: `self.P_gas`, read by
`f_q_gas_fixed_P_headspace`, is not defined in this file's class and would
resolve through base-class code of this repository that is not under `src`;
the spec fixes the fixed-pressure formula to use the configured
`headspace_P`, whose backing field is `_P_gas`. -/
def P_gas (r : AnaerobicCSTR) : ℚ := r._P_gas

/-- The per-biogas-component mass-to-mole conversion factors
`(cmps.i_mass / cmps.chem_MW)[self._gas_cmp_idx]`. -/
def gas_mass2mol_conversion (r : AnaerobicCSTR) : List ℚ :=
  (r._gas_cmp_idx.getD []).map
    (fun i => r.components.i_mass.getD i 0 / r.components.chem_MW.getD i 0)

/-- Method `f_q_gas_fixed_P_headspace(self, rhoTs, S_gas, T)`: caches and returns
`self._q_gas = self._R*T/(self.P_gas - self.p_vapor()) * self.V_liq *
sum(rhoTs*gas_mass2mol_conversion)`. -/
def f_q_gas_fixed_P_headspace (r : AnaerobicCSTR) (rhoTs S_gas : List ℚ)
    (T : ℚ) : AnaerobicCSTR × ℚ :=
  let conv := gas_mass2mol_conversion r
  let q := _R * T / (P_gas r - p_vapor r true) * r.V_liq
      * (List.zipWith (fun a b => a * b) rhoTs conv).sum
  ({ r with _q_gas := q }, q)

/-- Method `f_q_gas_var_P_headspace(self, rhoTs, S_gas, T)`: computes partial
pressures `p_gas = S_gas*R*T`, caches the total headspace pressure
`self._P_gas = sum(p_gas) + p_vapor` and the outflow
`self._q_gas = self._k_p * (P - self._P_atm)`. -/
def f_q_gas_var_P_headspace (r : AnaerobicCSTR) (rhoTs S_gas : List ℚ)
    (T : ℚ) : AnaerobicCSTR × ℚ :=
  let p_gas := S_gas.map (fun s => s * _R * T)
  let P := p_gas.sum + p_vapor r true
  let q := r._k_p * (P - r._P_atm)
  ({ r with _P_gas := P, _q_gas := q }, q)

/-- The `model` property setter with a non-`None` model: stores the model and
computes the derived constants `_S_vapor` (via `ideal_gas_law(p=p_vapor())`),
`_n_gas`, `_state_keys` (component IDs, then gas-suffixed biogas IDs, then
`Q`) and `_gas_cmp_idx` (`self.components.indices(model._biogas_IDs)`). -/
def model_set (r : AnaerobicCSTR) (m : KineticModel) : AnaerobicCSTR :=
  { r with
    _model := some m,
    _S_vapor := ideal_gas_law r (some (p_vapor r true)) none,
    _n_gas := some m._biogas_IDs.length,
    _state_keys := some (r.components.IDs
      ++ m._biogas_IDs.map (fun ID => ID ++ "_gas") ++ ["Q"]),
    _gas_cmp_idx := some (m._biogas_IDs.map (fun ID => r.components.index ID)) }

/-- The `state` property setter: raises `ValueError` unless the assigned
array is 1-D of length `len(self._state_keys)`; on success stores it.
(`len(None)` — an unbound model — is a `TypeError` in Python.) -/
def state_set (r : AnaerobicCSTR) (arr : List ℚ) : Except String AnaerobicCSTR :=
  match r._state_keys with
  | none => Except.error "TypeError: object of type NoneType has no len()"
  | some keys =>
    let n_state := keys.length
    if arr.length ≠ n_state then
      Except.error "ValueError: state must be a 1D array of length n_state"
    else
      Except.ok { r with _state := some arr }

/-- Method `_init_state(self)`: reads the inlet's total flow `Q` (m3/d) and
concentrations (mg/L, or the `_concs` override), scales concentrations by
1e-3 (mg/L to kg/m3), and sets
`self._state = np.append(Cs, [0]*self._n_gas + [Q])`,
`self._dstate = self._state * 0`. -/
def _init_state (r : AnaerobicCSTR) (inf_Q : ℚ) (inf_conc : List ℚ) :
    AnaerobicCSTR :=
  let Cs := (r._concs.getD inf_conc).map (fun c => c * 1e-3)
  let st := Cs ++ (List.replicate (r._n_gas.getD 0) 0 ++ [inf_Q])
  { r with _state := some st, _dstate := some (st.map (fun x => x * 0)) }

/-- Method `_update_state(self)`: projects `self._state` onto the gas and liquid
output streams. The liquid stream gets `y[:n_cmps]*(1-f_rtn)*1e3` and
`y[-1]`; the gas stream (allocated as `np.zeros(n_cmps+1)` when unset) gets
the gas segment scattered at `_gas_cmp_idx`, `_S_vapor` at the H2O index,
`_q_gas` last, and its first `n_cmps` entries scaled by
`chem_MW / i_mass * 1e3`. -/
def _update_state (r : AnaerobicCSTR) (gas liquid : Stream) :
    Stream × Stream :=
  let y := r._state.getD []
  let f_rtn := r._f_retain
  let i_mass := r.components.i_mass
  let chem_MW := r.components.chem_MW
  let n_cmps := r.components.n_cmps
  let liq_new := List.zipWith (fun yi fi => yi * (1 - fi) * 1e3)
      (y.take n_cmps) f_rtn
  let liquid' : Stream :=
    match liquid.state with
    | none => { liquid with state := some (liq_new ++ [y.getLast?.getD 0]) }
    | some st =>
      { liquid with
        state := some (setLast (setSlice st 0 liq_new) (y.getLast?.getD 0)) }
  let g0 :=
    match gas.state with
    | none => List.replicate (n_cmps + 1) 0
    | some st => st
  let g1 := setIndices g0 (r._gas_cmp_idx.getD [])
      ((y.drop n_cmps).take (r._n_gas.getD 0))
  let g2 := g1.set (r.components.index "H2O") (r._S_vapor.getD 0)
  let g3 := setLast g2 r._q_gas
  let front := zipWith3 (fun v mw im => v * mw / im * 1e3)
      (g3.take n_cmps) chem_MW i_mass
  let g4 := setSlice g3 0 front
  ({ gas with state := some g4 }, liquid')

/-- Method `_update_dstate(self)`: projects `self._dstate` onto the output streams'
derivative buffers. Only the liquid stream receives derivative data
(`dy[:n_cmps]*(1-f_rtn)*1e3` and `dy[-1]`); the gas stream's `dstate` is
allocated as `np.zeros(n_cmps+1)` when unset and otherwise untouched. -/
def _update_dstate (r : AnaerobicCSTR) (gas liquid : Stream) :
    Stream × Stream :=
  let dy := r._dstate.getD []
  let f_rtn := r._f_retain
  let n_cmps := r.components.n_cmps
  let dl := List.zipWith (fun di fi => di * (1 - fi) * 1e3)
      (dy.take n_cmps) f_rtn
  let liquid' : Stream :=
    match liquid.dstate with
    | none => { liquid with dstate := some (dl ++ [dy.getLast?.getD 0]) }
    | some st =>
      { liquid with
        dstate := some (setLast (setSlice st 0 dl) (dy.getLast?.getD 0)) }
  let gas' : Stream :=
    match gas.dstate with
    | none => { gas with dstate := some (List.replicate (n_cmps + 1) 0) }
    | some _ => gas
  (gas', liquid')

/-- The derivative function `dy_dt(t, QC_ins, QC, dQC_ins)` compiled by
`_compile_ODE` when a kinetic model is bound. It splits `QC` per the fixed
layout, scales the inlet row by 1e-3, refreshes the model parameters, then
evaluates stoichiometry and rates, writes the liquid mass balance into
`_dstate[:n_cmps]`, invokes the active pressure closure with `rhos[-3:]` to
obtain `q_gas`, writes the gas balance into `_dstate[n_cmps:n_cmps+n_gas]`,
passes the inlet flow derivative through to `_dstate[-1]`, and finally calls
`_update_dstate`. Returns the updated reactor and output streams. -/
def dy_dt (r : AnaerobicCSTR) (m : KineticModel) (hasexo : Bool)
    (f_exovars : ℚ → List ℚ) (gas liquid : Stream) (t : ℚ)
    (QC_ins : List (List ℚ)) (QC : List ℚ) (dQC_ins : List (List ℚ)) :
    AnaerobicCSTR × Stream × Stream :=
  let n_cmps := r.components.n_cmps
  let n_gas := r._n_gas.getD 0
  let S_liq := QC.take n_cmps
  let S_gas := (QC.drop n_cmps).take n_gas
  let Q := QC.getLast?.getD 0
  let row0 := QC_ins.headD []
  let S_in := row0.dropLast.map (fun s => s * 1e-3)
  let Q_in := row0.getLast?.getD 0
  let QCx := if hasexo then QC ++ f_exovars t else QC
  let params := m.params_eval QCx
  let M_stoichio := m.stoichio_eval params
  let rhos := m.rate_function params QCx
  let liq := List.zipWith (fun a b => a + b)
      (zipWith3 (fun sin sliq fi => (Q_in * sin - Q * sliq * (1 - fi)) / r.V_liq)
        S_in S_liq r._f_retain)
      (matTvec M_stoichio rhos)
  let d1 := setSlice (r._dstate.getD []) 0 liq
  let rho3 := rhos.drop (rhos.length - 3)
  let rq :=
    if r._fixed_P_gas then f_q_gas_fixed_P_headspace r rho3 S_gas r.T
    else f_q_gas_var_P_headspace r rho3 S_gas r.T
  let q_gas := rq.2
  let gasseg := List.zipWith (fun sg prod => - q_gas * sg / r.V_gas + prod)
      S_gas
      (List.zipWith (fun rh cv => rh * r.V_liq / r.V_gas * cv) rho3
        (gas_mass2mol_conversion r))
  let d2 := setSlice d1 n_cmps gasseg
  let d3 := setLast d2 ((dQC_ins.headD []).getLast?.getD 0)
  let r2 := { rq.1 with _dstate := some d3 }
  let gl := _update_dstate r2 gas liquid
  (r2, gl.1, gl.2)

/-- Modelled from the spec: `CSTR._compile_ODE`, the base-class fallback used
when no kinetic model is bound, is code of this repository that is not under
`src`; per the spec it is a pure hydraulic flow-through balance with zero
reaction contribution: `dS/dt = (Q_in*S_in - Q*S)/V_liq` per component, with
the flow derivative passed through from the inlet. -/
def CSTR_dy_dt (V_liq : ℚ) (QC_ins : List (List ℚ)) (QC : List ℚ)
    (dQC_ins : List (List ℚ)) : List ℚ :=
  let row0 := QC_ins.headD []
  let Q_in := row0.getLast?.getD 0
  let S_in := row0.dropLast
  let Q := QC.getLast?.getD 0
  let S := QC.dropLast
  (List.zipWith (fun sin s => (Q_in * sin - Q * s) / V_liq) S_in S)
    ++ [(dQC_ins.headD []).getLast?.getD 0]

/-- The compiled ODE: when `self._model is None` the derivative
function falls back to `CSTR._compile_ODE` (pure flow-through, modelled from
the spec, writing only the reactor's derivative buffer); otherwise it is the
full `dy_dt` above. -/
def compiled_ODE (r : AnaerobicCSTR) (hasexo : Bool) (f_exovars : ℚ → List ℚ)
    (gas liquid : Stream) (t : ℚ) (QC_ins : List (List ℚ)) (QC : List ℚ)
    (dQC_ins : List (List ℚ)) : AnaerobicCSTR × Stream × Stream :=
  match r._model with
  | none =>
    ({ r with _dstate := some (CSTR_dy_dt r.V_liq QC_ins QC dQC_ins) },
      gas, liquid)
  | some m => dy_dt r m hasexo f_exovars gas liquid t QC_ins QC dQC_ins

end AnaerobicCSTR

open AnaerobicCSTR

/-- A concrete five-component set (sugar, hydrogen, methane, inorganic
carbon, water) used to evaluate the embedding on closed inputs. -/
def demoComponents : Components :=
  { IDs := ["S_su", "S_h2", "S_ch4", "S_IC", "H2O"],
    i_mass := [1, 1, 1, 12/44, 1],
    chem_MW := [1, 2, 16, 44, 18],
    H2O_Psat := fun _ => 5000 }

/-- A concrete kinetic model over `demoComponents` whose three
biogas-producing reactions are last, as `AnaerobicCSTR` assumes. -/
def demoModel : KineticModel :=
  { _biogas_IDs := ["S_h2", "S_ch4", "S_IC"],
    params_eval := fun QC => QC,
    stoichio_eval := fun _ =>
      [[1, 0, 0, 0, 0], [0, 1, 0, 0, 0], [0, 0, 2, 0, 0], [0, 0, 0, 3, 0]],
    rate_function := fun _ _ => [1, 2, 3, 4] }

/-- A concrete freshly-constructed reactor (fields as set by `__init__` with
the default configuration, before a model is bound). -/
def demoReactor : AnaerobicCSTR :=
  { components := demoComponents, V_liq := 3400, V_gas := 300,
    T := 308, _P_gas := 1013/1000, _P_atm := 1013/1000, _k_p := 50000,
    _fixed_P_gas := false, _f_retain := [0, 19/20, 0, 0, 0], _q_gas := 0,
    _n_gas := none, _gas_cmp_idx := none, _state_keys := none,
    _S_vapor := none, _model := none, _concs := none,
    _state := none, _dstate := none }

/-- The demo reactor with `demoModel` bound through the `model` setter. -/
def demoBound : AnaerobicCSTR := model_set demoReactor demoModel

/-- An output stream with unallocated buffers. -/
def demoStream : Stream := { state := none, dstate := none }

/-- An output stream with already-allocated length-6 buffers. -/
def demoStream6 : Stream :=
  { state := some [8, 8, 8, 8, 8, 8], dstate := some [7, 7, 7, 7, 7, 7] }

/-- The demo reactor mid-run: model bound, state and caches populated with
concrete values. -/
def demoRunning : AnaerobicCSTR :=
  { demoBound with
    _state := some [1, 0, 0, 0, 990, 0, 0, 0, 170],
    _dstate := some [0, 0, 0, 0, 0, 0, 0, 0, 0],
    _S_vapor := some (1/500),
    _q_gas := 9 }

/-- Repeated projector calls: fold `_update_dstate` over a sequence of
reactor snapshots (the integrator invoking the projector once per
evaluation). -/
def iterate_update_dstate (rs : List AnaerobicCSTR) (gas liquid : Stream) :
    Stream × Stream :=
  rs.foldl (fun gl r => AnaerobicCSTR._update_dstate r gl.1 gl.2) (gas, liquid)

/-- A single-component reactor with no kinetic model bound, for the
no-model hydraulic fallback scenario of the spec (`V_liq = 1000`). -/
def flowReactor : AnaerobicCSTR :=
  { components :=
      { IDs := ["S_su"], i_mass := [1], chem_MW := [1],
        H2O_Psat := fun _ => 5000 },
    V_liq := 1000, V_gas := 300, T := 308, _P_gas := 1013/1000,
    _P_atm := 1013/1000, _k_p := 50000, _fixed_P_gas := false,
    _f_retain := [0], _q_gas := 0, _n_gas := none, _gas_cmp_idx := none,
    _state_keys := none, _S_vapor := none, _model := none, _concs := none,
    _state := none, _dstate := none }

/-! ### Helper lemmas about the list primitives -/

theorem length_zipWith3 (f : ℚ → ℚ → ℚ → ℚ) :
    ∀ (as bs cs : List ℚ),
      (zipWith3 f as bs cs).length = min as.length (min bs.length cs.length)
  | [], _, _ => by simp [zipWith3]
  | _ :: _, [], _ => by simp [zipWith3]
  | _ :: _, _ :: _, [] => by simp [zipWith3]
  | a :: as, b :: bs, c :: cs => by
    simp [zipWith3, length_zipWith3 f as bs cs, Nat.succ_min_succ]

theorem getD_zipWith (f : ℚ → ℚ → ℚ) (as bs : List ℚ) (i : ℕ)
    (h1 : i < as.length) (h2 : i < bs.length) :
    (List.zipWith f as bs).getD i 0 = f (as.getD i 0) (bs.getD i 0) := by
  rw [List.getD_eq_getElem _ _ (by simp [List.length_zipWith]; omega),
      List.getD_eq_getElem _ _ h1, List.getD_eq_getElem _ _ h2,
      List.getElem_zipWith]

theorem getD_zipWith3 (f : ℚ → ℚ → ℚ → ℚ) :
    ∀ (as bs cs : List ℚ) (i : ℕ),
      i < as.length → i < bs.length → i < cs.length →
      (zipWith3 f as bs cs).getD i 0
        = f (as.getD i 0) (bs.getD i 0) (cs.getD i 0)
  | a :: as, b :: bs, c :: cs, 0, _, _, _ => rfl
  | a :: as, b :: bs, c :: cs, i + 1, h1, h2, h3 => by
    simp only [zipWith3, List.getD_cons_succ]
    exact getD_zipWith3 f as bs cs i (by simpa using h1) (by simpa using h2)
      (by simpa using h3)
  | [], _, _, _, h1, _, _ => by simp at h1
  | _ :: _, [], _, _, _, h2, _ => by simp at h2
  | _ :: _, _ :: _, [], _, _, _, h3 => by simp at h3

theorem length_setSlice (buf vals : List ℚ) (start : ℕ)
    (h : start + vals.length ≤ buf.length) :
    (setSlice buf start vals).length = buf.length := by
  simp only [setSlice, List.length_append, List.length_take, List.length_drop]
  omega

theorem getD_setSlice_lt (buf vals : List ℚ) (start i : ℕ)
    (hi : i < start) (hs : start ≤ buf.length) :
    (setSlice buf start vals).getD i 0 = buf.getD i 0 := by
  unfold setSlice
  rw [List.getD_append _ _ _ _ (by simp [List.length_take]; omega),
      List.getD_append _ _ _ _ (by simp [List.length_take]; omega),
      List.getD_eq_getElem _ _ (by simp [List.length_take]; omega),
      List.getD_eq_getElem _ _ (by omega), List.getElem_take]

theorem getD_setSlice_mid (buf vals : List ℚ) (start i : ℕ)
    (h1 : start ≤ i) (h2 : i < start + vals.length) (hs : start ≤ buf.length) :
    (setSlice buf start vals).getD i 0 = vals.getD (i - start) 0 := by
  unfold setSlice
  rw [List.getD_append _ _ _ _ (by simp [List.length_take]; omega),
      List.getD_append_right _ _ _ _ (by simp [List.length_take]; omega)]
  congr 1
  simp [List.length_take]
  omega

theorem getD_setSlice_zero_ge (buf vals : List ℚ) (i : ℕ)
    (h1 : vals.length ≤ i) (h2 : i < buf.length) :
    (setSlice buf 0 vals).getD i 0 = buf.getD i 0 := by
  unfold setSlice
  simp only [List.take_zero, List.nil_append, Nat.zero_add]
  rw [List.getD_append_right _ _ _ _ h1,
      List.getD_eq_getElem _ _ (by simp [List.length_drop]; omega),
      List.getD_eq_getElem _ _ h2, List.getElem_drop]
  congr 1
  omega

theorem length_setLast (buf : List ℚ) (v : ℚ) (h : buf ≠ []) :
    (setLast buf v).length = buf.length := by
  have : 0 < buf.length := List.length_pos.mpr h
  simp only [setLast, List.length_append, List.length_dropLast,
    List.length_singleton]
  omega

theorem getD_setLast_lt (buf : List ℚ) (v : ℚ) (i : ℕ)
    (h : i < buf.length - 1) :
    (setLast buf v).getD i 0 = buf.getD i 0 := by
  unfold setLast
  rw [List.getD_append _ _ _ _ (by simp [List.length_dropLast]; omega),
      List.getD_eq_getElem _ _ (by simp [List.length_dropLast]; omega),
      List.getD_eq_getElem _ _ (by omega), List.getElem_dropLast]

theorem getD_setLast_last (buf : List ℚ) (v : ℚ) (h : buf ≠ []) :
    (setLast buf v).getD (buf.length - 1) 0 = v := by
  have : 0 < buf.length := List.length_pos.mpr h
  unfold setLast
  rw [List.getD_append_right _ _ _ _ (by simp [List.length_dropLast])]
  simp [List.length_dropLast]

theorem getD_setLast_at (buf : List ℚ) (v : ℚ) (i : ℕ) (hne : buf ≠ [])
    (hi : i = buf.length - 1) :
    (setLast buf v).getD i 0 = v := by
  rw [hi]
  exact getD_setLast_last buf v hne

theorem length_setIndices (idx : List ℕ) (vals : List ℚ) (buf : List ℚ) :
    (setIndices buf idx vals).length = buf.length := by
  unfold setIndices
  generalize idx.zip vals = l
  induction l generalizing buf with
  | nil => rfl
  | cons p l ih =>
    simp only [List.foldl_cons]
    rw [ih]
    simp

theorem getD_set_self (l : List ℚ) (i : ℕ) (v : ℚ) (h : i < l.length) :
    (l.set i v).getD i 0 = v := by
  rw [List.getD_eq_getElem _ _ (by simp only [List.length_set]; omega)]
  simp

theorem map_mul_zero (l : List ℚ) :
    l.map (fun x => x * 0) = List.replicate l.length 0 := by
  induction l with
  | nil => rfl
  | cons a l ih => simp [ih, List.replicate_succ]

theorem getLastD_eq_getD (l : List ℚ) :
    l.getLast?.getD 0 = l.getD (l.length - 1) 0 := by
  cases l with
  | nil => rfl
  | cons a l =>
    rw [List.getLast?_eq_getElem?, List.getD_eq_getD_get?, List.get?_eq_getElem?]

/-! ### Claim theorems: pressure closures and the equilibrium engine -/

/-- C3. Under the precondition that the configured headspace pressure
strictly exceeds the saturated vapor pressure at the operating temperature,
the fixed-headspace-pressure strategy returns
`q_gas = R*T/(headspace_P - p_vapor) * V_liq * Σ(rate_i * mass_to_mole_i)`,
with a nonzero denominator. -/
theorem fixed_P_headspace_q_gas (r : AnaerobicCSTR) (rhoTs S_gas : List ℚ)
    (T : ℚ) (h : p_vapor r true < headspace_P r) :
    (f_q_gas_fixed_P_headspace r rhoTs S_gas T).2
      = _R * T / (headspace_P r - p_vapor r true) * r.V_liq
        * (List.zipWith (fun a b => a * b) rhoTs
            (gas_mass2mol_conversion r)).sum
    ∧ headspace_P r - p_vapor r true ≠ 0 :=
  ⟨rfl, sub_ne_zero_of_ne (ne_of_gt h)⟩

/-- Witness for C3 at a concrete bound reactor. -/
theorem fixed_P_headspace_q_gas_witness :
    p_vapor demoBound true < headspace_P demoBound
    ∧ ((f_q_gas_fixed_P_headspace demoBound [1, 2, 3] [0, 0, 0] 308).2
        = _R * 308 / (headspace_P demoBound - p_vapor demoBound true)
          * demoBound.V_liq
          * (List.zipWith (fun a b => a * b) [1, 2, 3]
              (gas_mass2mol_conversion demoBound)).sum
      ∧ headspace_P demoBound - p_vapor demoBound true ≠ 0) :=
  ⟨by norm_num [demoBound, demoReactor, demoComponents, demoModel, model_set,
      p_vapor, headspace_P],
    fixed_P_headspace_q_gas demoBound [1, 2, 3] [0, 0, 0] 308
      (by norm_num [demoBound, demoReactor, demoComponents, demoModel,
        model_set, p_vapor, headspace_P])⟩

/-- C4. The variable-headspace-pressure strategy computes the headspace
pressure `Σ(S_gas_i*R*T) + p_vapor` and the outflow
`pipe_resistance * (P - external_P)`; when every gas concentration is zero
the pressure is exactly `p_vapor` and the outflow
`pipe_resistance * (p_vapor - external_P)`. -/
theorem var_P_headspace_pressure_outflow (r : AnaerobicCSTR)
    (rhoTs S_gas : List ℚ) (T : ℚ) :
    ((f_q_gas_var_P_headspace r rhoTs S_gas T).1._P_gas
        = (S_gas.map (fun s => s * _R * T)).sum + p_vapor r true)
    ∧ ((f_q_gas_var_P_headspace r rhoTs S_gas T).2
        = r._k_p * (((S_gas.map (fun s => s * _R * T)).sum + p_vapor r true)
            - r._P_atm))
    ∧ (S_gas = List.replicate S_gas.length 0 →
        (f_q_gas_var_P_headspace r rhoTs S_gas T).1._P_gas = p_vapor r true
        ∧ (f_q_gas_var_P_headspace r rhoTs S_gas T).2
            = r._k_p * (p_vapor r true - r._P_atm)) := by
  have hsum : S_gas = List.replicate S_gas.length 0 →
      (S_gas.map (fun s => s * _R * T)).sum = 0 := by
    intro hz
    rw [hz]
    simp [List.map_replicate]
  refine ⟨rfl, rfl, fun hz => ⟨?_, ?_⟩⟩
  · show (S_gas.map (fun s => s * _R * T)).sum + p_vapor r true = _
    rw [hsum hz, zero_add]
  · show r._k_p * ((S_gas.map (fun s => s * _R * T)).sum + p_vapor r true
        - r._P_atm) = _
    rw [hsum hz, zero_add]

/-- Witness for C4 at a concrete reactor with all-zero gas concentrations. -/
theorem var_P_headspace_pressure_outflow_witness :
    ([(0 : ℚ), 0, 0] = List.replicate (List.length [(0 : ℚ), 0, 0]) 0)
    ∧ ((f_q_gas_var_P_headspace demoReactor [1, 2, 3] [0, 0, 0] 308).1._P_gas
        = p_vapor demoReactor true
      ∧ (f_q_gas_var_P_headspace demoReactor [1, 2, 3] [0, 0, 0] 308).2
          = demoReactor._k_p * (p_vapor demoReactor true
              - demoReactor._P_atm)) :=
  ⟨by decide,
    (var_P_headspace_pressure_outflow demoReactor [1, 2, 3] [0, 0, 0]
      308).2.2 (by decide)⟩

/-- C5 (amended). For every strictly positive concentration `S` and positive
operating temperature, converting to a partial pressure via `ideal_gas_law`
and back yields exactly `S`. (At `S = 0` the Python truthiness guard makes
`ideal_gas_law` return `None`, so the round trip fails there.) -/
theorem ideal_gas_law_round_trip_pos (r : AnaerobicCSTR) (S : ℚ)
    (hS : 0 < S) (hT : 0 < r.T) :
    ideal_gas_law r (ideal_gas_law r none (some S)) none = some S := by
  have hR : _R ≠ 0 := by norm_num [_R]
  have hS' : S ≠ 0 := ne_of_gt hS
  have hT' : r.T ≠ 0 := ne_of_gt hT
  have h1 : ideal_gas_law r none (some S) = some (S * _R * r.T) := by
    unfold ideal_gas_law truthy
    simp [hS']
  rw [h1]
  have h2 : S * _R * r.T ≠ 0 := by
    exact mul_ne_zero (mul_ne_zero hS' hR) hT'
  unfold ideal_gas_law truthy
  simp only [bne_iff_ne, ne_eq, h2, not_false_eq_true, if_true, ite_true,
    Option.getD_some]
  congr 1
  field_simp
  ring

/-- Counterexample to C5 as stated: at `S = 0` the round trip returns `None`
rather than `0`. -/
theorem ideal_gas_law_round_trip_fails_at_zero :
    ideal_gas_law demoReactor (ideal_gas_law demoReactor none (some 0)) none
      = none
    ∧ ideal_gas_law demoReactor (ideal_gas_law demoReactor none (some 0)) none
      ≠ some 0 := by
  decide

/-- Witness for the amended C5 at `S = 2`. -/
theorem ideal_gas_law_round_trip_pos_witness :
    (0 : ℚ) < 2 ∧ 0 < demoReactor.T
    ∧ ideal_gas_law demoReactor (ideal_gas_law demoReactor none (some 2)) none
        = some 2 :=
  ⟨by norm_num, by decide,
    ideal_gas_law_round_trip_pos demoReactor 2 (by norm_num) (by decide)⟩

/-- C7. With no kinetic model bound, the compiled ODE is the pure hydraulic
flow-through balance; for a single component with inlet concentration
10 kg/m3, `Q_in = Q = 100` m3/d and `V_liq = 1000` m3, the concentration
derivative is 0. -/
theorem no_model_fallback_flow_through :
    (compiled_ODE flowReactor false (fun _ => []) demoStream demoStream 0
        [[10, 100]] [10, 100] [[0, 0]]).1._dstate = some [0, 0] := by
  norm_num [compiled_ODE, flowReactor, CSTR_dy_dt]

/-- C9. The variable-pressure strategy stores the computed total pressure in
`_P_gas`, the very field the `headspace_P` accessor reads and its setter
writes, so after a variable-mode evaluation `headspace_P` returns the last
computed pressure; a concrete configuration shows the configured value is
not preserved. -/
theorem var_P_headspace_overwrites_headspace_P (r : AnaerobicCSTR)
    (rhoTs S_gas : List ℚ) (T P : ℚ) :
    headspace_P ((f_q_gas_var_P_headspace r rhoTs S_gas T).1)
      = (S_gas.map (fun s => s * _R * T)).sum + p_vapor r true
    ∧ headspace_P (headspace_P_set r P) = P
    ∧ ∃ (r' : AnaerobicCSTR) (S' : List ℚ) (T' : ℚ),
        headspace_P ((f_q_gas_var_P_headspace r' [] S' T').1)
          ≠ headspace_P r' := by
  refine ⟨rfl, rfl, demoReactor, [], 308, ?_⟩
  norm_num [f_q_gas_var_P_headspace, demoReactor, demoComponents, p_vapor,
    headspace_P]

/-! ### Claim theorems: state layout and projection -/

/-- C6. For a bound kinetic model with `n` liquid components and `k` biogas
components, `_init_state` produces a state of length `n + k + 1` (scaled
inlet concentrations, `k` zeros, the inlet flow) and an all-zero derivative
of the same length; assigning a state of any other length raises
`ValueError`, while a correct-length assignment succeeds. -/
theorem state_layout_invariant (r : AnaerobicCSTR) (m : KineticModel)
    (Q : ℚ) (conc : List ℚ) (n k : ℕ) (arr_bad arr_ok : List ℚ)
    (hn : r.components.IDs.length = n) (hk : m._biogas_IDs.length = k)
    (hconcs : r._concs = none) (hc : conc.length = n)
    (hbad : arr_bad.length ≠ n + k + 1) (hok : arr_ok.length = n + k + 1) :
    (_init_state (model_set r m) Q conc)._state
        = some (conc.map (fun c => c * 1e-3) ++ (List.replicate k 0 ++ [Q]))
    ∧ (((_init_state (model_set r m) Q conc)._state).getD []).length
        = n + k + 1
    ∧ (_init_state (model_set r m) Q conc)._dstate
        = some (List.replicate (n + k + 1) 0)
    ∧ state_set (_init_state (model_set r m) Q conc) arr_bad
        = Except.error "ValueError: state must be a 1D array of length n_state"
    ∧ state_set (_init_state (model_set r m) Q conc) arr_ok
        = Except.ok
            { _init_state (model_set r m) Q conc with _state := some arr_ok } := by
  have hstate : (_init_state (model_set r m) Q conc)._state
      = some (conc.map (fun c => c * 1e-3) ++ (List.replicate k 0 ++ [Q])) := by
    simp [_init_state, model_set, hconcs, hk]
  have hslen : (conc.map (fun c => c * 1e-3)
      ++ (List.replicate k 0 ++ [Q])).length = n + k + 1 := by
    simp [hc]
    omega
  have hkeys : (_init_state (model_set r m) Q conc)._state_keys
      = some (r.components.IDs
          ++ m._biogas_IDs.map (fun ID => ID ++ "_gas") ++ ["Q"]) := by
    simp [_init_state, model_set]
  have hklen : (r.components.IDs
      ++ m._biogas_IDs.map (fun ID => ID ++ "_gas") ++ ["Q"]).length
      = n + k + 1 := by
    simp [hn, hk]
    omega
  refine ⟨hstate, ?_, ?_, ?_, ?_⟩
  · rw [hstate]
    simpa using hslen
  · have hdst : (_init_state (model_set r m) Q conc)._dstate
        = some ((conc.map (fun c => c * 1e-3)
            ++ (List.replicate k 0 ++ [Q])).map (fun x => x * 0)) := by
      simp [_init_state, model_set, hconcs, hk]
    rw [hdst, map_mul_zero, hslen]
  · simp only [state_set, hkeys, hklen]
    rw [if_pos hbad]
  · simp only [state_set, hkeys, hklen]
    rw [if_neg (by simp [hok])]

/-- Witness for C6 at the concrete demo reactor (`n = 5`, `k = 3`). -/
theorem state_layout_invariant_witness :
    (_init_state (model_set demoReactor demoModel) 170
        [1000, 0, 0, 0, 990000])._state
      = some ([(1000 : ℚ), 0, 0, 0, 990000].map (fun c => c * 1e-3)
          ++ (List.replicate 3 0 ++ [170]))
    ∧ (((_init_state (model_set demoReactor demoModel) 170
          [1000, 0, 0, 0, 990000])._state).getD []).length = 5 + 3 + 1
    ∧ (_init_state (model_set demoReactor demoModel) 170
          [1000, 0, 0, 0, 990000])._dstate
        = some (List.replicate (5 + 3 + 1) 0)
    ∧ state_set (_init_state (model_set demoReactor demoModel) 170
          [1000, 0, 0, 0, 990000]) [1, 2, 3]
        = Except.error "ValueError: state must be a 1D array of length n_state"
    ∧ state_set (_init_state (model_set demoReactor demoModel) 170
          [1000, 0, 0, 0, 990000]) [1, 2, 3, 4, 5, 6, 7, 8, 9]
        = Except.ok
            { _init_state (model_set demoReactor demoModel) 170
                [1000, 0, 0, 0, 990000] with
              _state := some [1, 2, 3, 4, 5, 6, 7, 8, 9] } :=
  state_layout_invariant demoReactor demoModel 170 [1000, 0, 0, 0, 990000]
    5 3 [1, 2, 3] [1, 2, 3, 4, 5, 6, 7, 8, 9] rfl rfl rfl rfl (by decide) rfl

/-- Helper: `_update_dstate` with an unallocated gas derivative buffer
allocates it as zeros of length `n_cmps + 1` and leaves the gas state
buffer alone. -/
theorem update_dstate_gas_none (r : AnaerobicCSTR) (gas liquid : Stream)
    (h : gas.dstate = none) :
    ((_update_dstate r gas liquid).1).dstate
      = some (List.replicate (r.components.n_cmps + 1) 0)
    ∧ ((_update_dstate r gas liquid).1).state = gas.state := by
  unfold _update_dstate
  rw [h]
  exact ⟨rfl, rfl⟩

/-- Helper: `_update_dstate` with an already-allocated gas derivative buffer
returns the gas stream entirely unchanged. -/
theorem update_dstate_gas_some (r : AnaerobicCSTR) (gas liquid : Stream)
    (d : List ℚ) (h : gas.dstate = some d) :
    (_update_dstate r gas liquid).1 = gas := by
  unfold _update_dstate
  rw [h]

/-- Helper: once the gas derivative buffer is allocated, any number of
further `_update_dstate` calls leave the gas stream unchanged. -/
theorem iterate_update_dstate_gas_fixed (rs : List AnaerobicCSTR) :
    ∀ (gas liquid : Stream) (d : List ℚ), gas.dstate = some d →
      (iterate_update_dstate rs gas liquid).1 = gas := by
  induction rs with
  | nil => intro gas liquid d h; rfl
  | cons r rs ih =>
    intro gas liquid d h
    have h1 : (_update_dstate r gas liquid).1 = gas :=
      update_dstate_gas_some r gas liquid d h
    have hp : _update_dstate r gas liquid
        = (gas, (_update_dstate r gas liquid).2) :=
      Prod.ext h1 rfl
    show (List.foldl (fun gl r => _update_dstate r gl.1 gl.2)
        (_update_dstate r gas liquid) rs).1 = gas
    rw [hp]
    exact ih gas (_update_dstate r gas liquid).2 d h

/-- C10. Starting from an unallocated gas derivative buffer, any sequence of
`_update_dstate` calls leaves the gas stream's derivative array identically
zero (it is allocated once as zeros and never written with derivative
data), and its state buffer untouched. -/
theorem update_dstate_gas_stays_zero (r0 : AnaerobicCSTR)
    (rs : List AnaerobicCSTR) (gas liquid : Stream) (n : ℕ)
    (hn : r0.components.n_cmps = n) (hgas : gas.dstate = none) :
    ((iterate_update_dstate (r0 :: rs) gas liquid).1).dstate
      = some (List.replicate (n + 1) 0)
    ∧ ((iterate_update_dstate (r0 :: rs) gas liquid).1).state = gas.state := by
  have h1 := update_dstate_gas_none r0 gas liquid hgas
  have hfix : (iterate_update_dstate rs (_update_dstate r0 gas liquid).1
      (_update_dstate r0 gas liquid).2).1 = (_update_dstate r0 gas liquid).1 :=
    iterate_update_dstate_gas_fixed rs _ _ _ h1.1
  have hstep : iterate_update_dstate (r0 :: rs) gas liquid
      = iterate_update_dstate rs (_update_dstate r0 gas liquid).1
          (_update_dstate r0 gas liquid).2 := rfl
  rw [hstep, hfix, hn] at *
  exact ⟨h1.1, h1.2⟩

/-- Helper: `getD` through `take`. -/
theorem getD_take (l : List ℚ) (n i : ℕ) (h1 : i < n) (h2 : i < l.length) :
    (l.take n).getD i 0 = l.getD i 0 := by
  rw [List.getD_eq_getElem _ _ (by simp [List.length_take]; omega),
      List.getD_eq_getElem _ _ h2, List.getElem_take]

/-- Helper: `getD` through a `drop`-then-`take` segment. -/
theorem getD_drop_take (l : List ℚ) (n k i : ℕ) (h1 : i < k)
    (h2 : n + i < l.length) :
    ((l.drop n).take k).getD i 0 = l.getD (n + i) 0 := by
  rw [getD_take _ _ _ h1 (by simp [List.length_drop]; omega),
      List.getD_eq_getElem _ _ (by simp [List.length_drop]; omega),
      List.getD_eq_getElem _ _ h2, List.getElem_drop]

/-- Helper: length and the `q_gas` / H2O entries of the gas buffer after the
set-H2O, set-last and scale-front pipeline of `_update_state`, for any base
buffer of length `n + 1`. -/
theorem gas_pipeline_spec (g1 MW im : List ℚ) (hidx n : ℕ) (sv q : ℚ)
    (hg1 : g1.length = n + 1) (hh : hidx < n)
    (hMW : MW.length = n) (him : im.length = n) :
    (setSlice (setLast (g1.set hidx sv) q) 0
        (zipWith3 (fun v mw i => v * mw / i * 1e3)
          ((setLast (g1.set hidx sv) q).take n) MW im)).length = n + 1
    ∧ (setSlice (setLast (g1.set hidx sv) q) 0
        (zipWith3 (fun v mw i => v * mw / i * 1e3)
          ((setLast (g1.set hidx sv) q).take n) MW im)).getD n 0 = q
    ∧ (setSlice (setLast (g1.set hidx sv) q) 0
        (zipWith3 (fun v mw i => v * mw / i * 1e3)
          ((setLast (g1.set hidx sv) q).take n) MW im)).getD hidx 0
        = sv * MW.getD hidx 0 / im.getD hidx 0 * 1e3 := by
  have hg2 : (g1.set hidx sv).length = n + 1 := by
    rw [List.length_set, hg1]
  have hg2ne : g1.set hidx sv ≠ [] := by
    intro hcon
    rw [hcon] at hg2
    simp at hg2
  have hg3 : (setLast (g1.set hidx sv) q).length = n + 1 := by
    rw [length_setLast _ _ hg2ne, hg2]
  have hfront : (zipWith3 (fun v mw i => v * mw / i * 1e3)
      ((setLast (g1.set hidx sv) q).take n) MW im).length = n := by
    rw [length_zipWith3]
    simp [List.length_take, hg3, hMW, him]
  refine ⟨?_, ?_, ?_⟩
  · rw [length_setSlice _ _ _ (by omega), hg3]
  · rw [getD_setSlice_zero_ge _ _ _ (by omega) (by omega),
      getD_setLast_at _ _ _ hg2ne (by omega)]
  · rw [getD_setSlice_mid _ _ _ _ (by omega) (by omega) (by omega),
      Nat.sub_zero,
      getD_zipWith3 _ _ _ _ _ (by simp [List.length_take, hg3]; omega)
        (by omega) (by omega),
      getD_take _ _ _ hh (by omega),
      getD_setLast_lt _ _ _ (by omega),
      getD_set_self _ _ _ (by omega)]

/-- Helper: a liquid-segment entry of the derivative buffer after the three
writes `_dstate[:n] = liq`, `_dstate[n:n+len(gasseg)] = gasseg`,
`_dstate[-1] = dq`. -/
theorem getD_write_pattern_liquid (d0 liq gasseg : List ℚ) (dq : ℚ)
    (n e c : ℕ) (hliq : liq.length = n) (hgl : gasseg.length ≤ e)
    (hd0 : d0.length = n + e + 1) (hc : c < n) :
    (setLast (setSlice (setSlice d0 0 liq) n gasseg) dq).getD c 0
      = liq.getD c 0 := by
  have h1 : (setSlice d0 0 liq).length = n + e + 1 := by
    rw [length_setSlice _ _ _ (by omega), hd0]
  have h2 : (setSlice (setSlice d0 0 liq) n gasseg).length = n + e + 1 := by
    rw [length_setSlice _ _ _ (by omega), h1]
  rw [getD_setLast_lt _ _ _ (by omega),
      getD_setSlice_lt _ _ _ _ (by omega) (by omega),
      getD_setSlice_mid _ _ _ _ (by omega) (by omega) (by omega),
      Nat.sub_zero]

/-- Helper: a gas-segment entry of the derivative buffer after the same
three writes. -/
theorem getD_write_pattern_gas (d0 liq gasseg : List ℚ) (dq : ℚ)
    (n e i : ℕ) (hliq : liq.length = n) (hgl : gasseg.length ≤ e)
    (hd0 : d0.length = n + e + 1) (hi : i < gasseg.length) :
    (setLast (setSlice (setSlice d0 0 liq) n gasseg) dq).getD (n + i) 0
      = gasseg.getD i 0 := by
  have h1 : (setSlice d0 0 liq).length = n + e + 1 := by
    rw [length_setSlice _ _ _ (by omega), hd0]
  have h2 : (setSlice (setSlice d0 0 liq) n gasseg).length = n + e + 1 := by
    rw [length_setSlice _ _ _ (by omega), h1]
  rw [getD_setLast_lt _ _ _ (by omega),
      getD_setSlice_mid _ _ _ _ (by omega) (by omega) (by omega)]
  congr 1
  omega

/-- Helper: `getD` through `dropLast`-then-scale, as in the inlet
concentration row `S_in = QC_ins[0,:-1] * 1e-3`. -/
theorem getD_dropLast_scale (l : List ℚ) (c : ℕ) (h : c + 1 < l.length) :
    (l.dropLast.map (fun s => s * 1e-3)).getD c 0 = l.getD c 0 * 1e-3 := by
  rw [List.getD_eq_getElem _ _
        (by simp [List.length_map, List.length_dropLast]; omega),
      List.getElem_map, List.getElem_dropLast,
      List.getD_eq_getElem _ _ (by omega)]

/-- Helper: both pressure-closure strategies cache their returned gas
outflow in `_q_gas`. -/
theorem strategy_q_gas_cached (r : AnaerobicCSTR) (rhoTs S_gas : List ℚ)
    (T : ℚ) :
    ((if r._fixed_P_gas then f_q_gas_fixed_P_headspace r rhoTs S_gas T
      else f_q_gas_var_P_headspace r rhoTs S_gas T).1)._q_gas
    = (if r._fixed_P_gas then f_q_gas_fixed_P_headspace r rhoTs S_gas T
      else f_q_gas_var_P_headspace r rhoTs S_gas T).2 := by
  cases r._fixed_P_gas <;> rfl

/-- C8. The output-stream projector `_update_state` produces (or, when
already allocated with the right length, overwrites without changing the
length of) stream buffers of length `n_cmps + 1`; the liquid stream's first
`n_cmps` entries are the state's liquid concentrations times
`(1 - retention) * 1e3` and its last entry the state's flow; the gas
stream's last entry is the cached `q_gas` and its H2O entry the cached
saturated-vapor concentration scaled by `chem_MW/i_mass*1e3`. -/
theorem update_state_projection (r : AnaerobicCSTR) (gas liquid : Stream)
    (y : List ℚ) (n k h : ℕ) (sv : ℚ)
    (hy : r._state = some y) (hn : r.components.n_cmps = n)
    (hylen : y.length = n + k + 1)
    (hf : r._f_retain.length = n)
    (hsv : r._S_vapor = some sv)
    (him : r.components.i_mass.length = n)
    (hMW : r.components.chem_MW.length = n)
    (hH2O : r.components.index "H2O" = h) (hh : h < n)
    (hliq : liquid.state = none
      ∨ ∃ ls, liquid.state = some ls ∧ ls.length = n + 1)
    (hgs : gas.state = none
      ∨ ∃ gs, gas.state = some gs ∧ gs.length = n + 1) :
    (((_update_state r gas liquid).2.state).getD []).length = n + 1
    ∧ (∀ c, c < n →
        (((_update_state r gas liquid).2.state).getD []).getD c 0
          = y.getD c 0 * (1 - r._f_retain.getD c 0) * 1e3)
    ∧ (((_update_state r gas liquid).2.state).getD []).getD n 0
        = y.getD (n + k) 0
    ∧ (((_update_state r gas liquid).1.state).getD []).length = n + 1
    ∧ (((_update_state r gas liquid).1.state).getD []).getD n 0 = r._q_gas
    ∧ (((_update_state r gas liquid).1.state).getD []).getD h 0
        = sv * r.components.chem_MW.getD h 0
            / r.components.i_mass.getD h 0 * 1e3 := by
  have hyn : n ≤ y.length := by omega
  have hlast : y.getLast?.getD 0 = y.getD (n + k) 0 := by
    rw [getLastD_eq_getD, hylen]
    simp
  have hliqnew : (List.zipWith (fun yi fi => yi * (1 - fi) * 1e3)
      (y.take n) r._f_retain).length = n := by
    simp [List.length_zipWith, List.length_take, hf]
    omega
  have hliqget : ∀ c, c < n →
      (List.zipWith (fun yi fi => yi * (1 - fi) * 1e3)
        (y.take n) r._f_retain).getD c 0
      = y.getD c 0 * (1 - r._f_retain.getD c 0) * 1e3 := by
    intro c hc
    rw [getD_zipWith _ _ _ _ (by simp [List.length_take]; omega)
        (by omega), getD_take _ _ _ hc (by omega)]
  have Hliq : (((_update_state r gas liquid).2.state).getD []).length = n + 1
      ∧ (∀ c, c < n →
          (((_update_state r gas liquid).2.state).getD []).getD c 0
            = y.getD c 0 * (1 - r._f_retain.getD c 0) * 1e3)
      ∧ (((_update_state r gas liquid).2.state).getD []).getD n 0
          = y.getD (n + k) 0 := by
    rcases hliq with hls | ⟨ls, hls, hlslen⟩
    · have hres : ((_update_state r gas liquid).2.state).getD []
          = (List.zipWith (fun yi fi => yi * (1 - fi) * 1e3)
              (y.take n) r._f_retain) ++ [y.getLast?.getD 0] := by
        simp only [_update_state, hy, hls, hn, Option.getD_some]
      rw [hres]
      refine ⟨by simp [hliqnew], fun c hc => ?_, ?_⟩
      · rw [List.getD_append _ _ _ _ (by omega), hliqget c hc]
      · rw [List.getD_append_right _ _ _ _ (by omega), hliqnew, hlast]
        simp
    · have hres : ((_update_state r gas liquid).2.state).getD []
          = setLast (setSlice ls 0 (List.zipWith
              (fun yi fi => yi * (1 - fi) * 1e3) (y.take n) r._f_retain))
              (y.getLast?.getD 0) := by
        simp only [_update_state, hy, hls, hn, Option.getD_some]
      have hsllen : (setSlice ls 0 (List.zipWith
          (fun yi fi => yi * (1 - fi) * 1e3) (y.take n) r._f_retain)).length
          = n + 1 := by
        rw [length_setSlice _ _ _ (by omega), hlslen]
      have hne : (setSlice ls 0 (List.zipWith
          (fun yi fi => yi * (1 - fi) * 1e3) (y.take n) r._f_retain))
          ≠ [] := by
        intro hcon
        rw [hcon] at hsllen
        simp at hsllen
      rw [hres]
      refine ⟨by rw [length_setLast _ _ hne, hsllen], fun c hc => ?_, ?_⟩
      · rw [getD_setLast_lt _ _ _ (by omega),
          getD_setSlice_mid _ _ _ _ (by omega) (by omega) (by omega),
          Nat.sub_zero, hliqget c hc]
      · rw [getD_setLast_at _ _ _ hne (by omega)]
        exact hlast
  have Hgas : (((_update_state r gas liquid).1.state).getD []).length = n + 1
      ∧ (((_update_state r gas liquid).1.state).getD []).getD n 0 = r._q_gas
      ∧ (((_update_state r gas liquid).1.state).getD []).getD h 0
          = sv * r.components.chem_MW.getD h 0
              / r.components.i_mass.getD h 0 * 1e3 := by
    rcases hgs with hgs0 | ⟨gs, hgs0, hgslen⟩
    · have hres : ((_update_state r gas liquid).1.state).getD []
          = setSlice (setLast ((setIndices (List.replicate (n + 1) 0)
              (r._gas_cmp_idx.getD []) ((y.drop n).take (r._n_gas.getD 0))).set
              h sv) r._q_gas) 0
            (zipWith3 (fun v mw im => v * mw / im * 1e3)
              ((setLast ((setIndices (List.replicate (n + 1) 0)
                (r._gas_cmp_idx.getD [])
                ((y.drop n).take (r._n_gas.getD 0))).set h sv)
                  r._q_gas).take n)
              r.components.chem_MW r.components.i_mass) := by
        simp only [_update_state, hy, hgs0, hn, hsv, hH2O, Option.getD_some]
      rw [hres]
      exact gas_pipeline_spec _ _ _ _ _ _ _
        (by rw [length_setIndices]; simp) hh hMW him
    · have hres : ((_update_state r gas liquid).1.state).getD []
          = setSlice (setLast ((setIndices gs
              (r._gas_cmp_idx.getD []) ((y.drop n).take (r._n_gas.getD 0))).set
              h sv) r._q_gas) 0
            (zipWith3 (fun v mw im => v * mw / im * 1e3)
              ((setLast ((setIndices gs
                (r._gas_cmp_idx.getD [])
                ((y.drop n).take (r._n_gas.getD 0))).set h sv)
                  r._q_gas).take n)
              r.components.chem_MW r.components.i_mass) := by
        simp only [_update_state, hy, hgs0, hn, hsv, hH2O, Option.getD_some]
      rw [hres]
      exact gas_pipeline_spec _ _ _ _ _ _ _
        (by rw [length_setIndices, hgslen]) hh hMW him
  exact ⟨Hliq.1, Hliq.2.1, Hliq.2.2, Hgas.1, Hgas.2.1, Hgas.2.2⟩

/-- Witness for C8 at the mid-run demo reactor: unallocated gas buffer,
already-allocated liquid buffer. -/
theorem update_state_projection_witness :
    (((_update_state demoRunning demoStream demoStream6).2.state).getD
        []).length = 5 + 1
    ∧ (((_update_state demoRunning demoStream demoStream6).2.state).getD
        []).getD 1 0
        = [(1 : ℚ), 0, 0, 0, 990, 0, 0, 0, 170].getD 1 0
            * (1 - demoRunning._f_retain.getD 1 0) * 1e3
    ∧ (((_update_state demoRunning demoStream demoStream6).2.state).getD
        []).getD 5 0
        = [(1 : ℚ), 0, 0, 0, 990, 0, 0, 0, 170].getD (5 + 3) 0
    ∧ (((_update_state demoRunning demoStream demoStream6).1.state).getD
        []).length = 5 + 1
    ∧ (((_update_state demoRunning demoStream demoStream6).1.state).getD
        []).getD 5 0 = demoRunning._q_gas
    ∧ (((_update_state demoRunning demoStream demoStream6).1.state).getD
        []).getD 4 0
        = (1/500 : ℚ) * demoRunning.components.chem_MW.getD 4 0
            / demoRunning.components.i_mass.getD 4 0 * 1e3 := by
  have H := update_state_projection demoRunning demoStream demoStream6
    [1, 0, 0, 0, 990, 0, 0, 0, 170] 5 3 4 (1/500) rfl rfl rfl rfl rfl rfl rfl
    rfl (by decide)
    (Or.inr ⟨[8, 8, 8, 8, 8, 8], rfl, rfl⟩) (Or.inl rfl)
  exact ⟨H.1, H.2.1 1 (by decide), H.2.2.1, H.2.2.2.1, H.2.2.2.2.1,
    H.2.2.2.2.2⟩

/-- C1. For every derivative evaluation with a bound kinetic model, each
liquid-segment entry of the derivative buffer equals
`(Q_in*S_in - Q*S_liq*(1 - retention))/V_liq + stoichiometry^T · rates`,
with `S_in` the inlet row scaled by `1e-3`, `Q` and `S_liq` read from the
current state per the fixed layout, and retention scaling only the outflow
term. -/
theorem dy_dt_liquid_mass_balance (r : AnaerobicCSTR) (m : KineticModel)
    (hasexo : Bool) (f_exovars : ℚ → List ℚ) (gas liquid : Stream) (t : ℚ)
    (row0 QC d0 : List ℚ) (dQC_ins : List (List ℚ)) (n k : ℕ)
    (QCx : List ℚ) (M : List (List ℚ)) (rhos : List ℚ) (c : ℕ)
    (hn : r.components.n_cmps = n) (hk : r._n_gas = some k)
    (hd : r._dstate = some d0) (hd0 : d0.length = n + k + 1)
    (hQC : QC.length = n + k + 1) (hrow : row0.length = n + 1)
    (hf : r._f_retain.length = n)
    (hQCx : QCx = if hasexo then QC ++ f_exovars t else QC)
    (hMdef : M = m.stoichio_eval (m.params_eval QCx))
    (hrhos : rhos = m.rate_function (m.params_eval QCx) QCx)
    (hM : (M.headD []).length = n) (hc : c < n) :
    ((dy_dt r m hasexo f_exovars gas liquid t [row0] QC
        dQC_ins).1._dstate.getD []).getD c 0
      = (row0.getLast?.getD 0 * (row0.getD c 0 * 1e-3)
          - QC.getLast?.getD 0 * QC.getD c 0
            * (1 - r._f_retain.getD c 0)) / r.V_liq
        + (matTvec M rhos).getD c 0 := by
  simp only [dy_dt, hd, Option.getD_some, hn, hk, List.headD_cons, ← hQCx,
    ← hMdef, ← hrhos]
  rw [getD_write_pattern_liquid _ _ _ _ n k c ?hliq ?hgl hd0 hc]
  case hliq =>
    rw [List.length_zipWith, length_zipWith3]
    simp only [matTvec, List.length_map, List.length_range, List.length_take,
      List.length_dropLast, hrow, hf, hQC, hM]
    omega
  case hgl =>
    rw [List.length_zipWith]
    simp only [List.length_take, List.length_drop, hQC]
    omega
  rw [getD_zipWith _ _ _ c
        (by rw [length_zipWith3]
            simp only [List.length_map, List.length_dropLast, List.length_take,
              hrow, hf, hQC]
            omega)
        (by simp only [matTvec, List.length_map, List.length_range, hM]
            omega),
      getD_zipWith3 _ _ _ _ c
        (by simp only [List.length_map, List.length_dropLast, hrow]
            omega)
        (by simp only [List.length_take, hQC]
            omega)
        (by omega),
      getD_dropLast_scale _ _ (by omega), getD_take _ _ _ hc (by omega)]

/-- Witness for C1 at a concrete evaluation of the demo reactor. -/
theorem dy_dt_liquid_mass_balance_witness :
    ((dy_dt demoRunning demoModel false (fun _ => []) demoStream demoStream6 0
        [[7, 0, 0, 0, 9, 100]] [4, 0, 0, 0, 1, 0, 0, 0, 170]
        [[0, 0, 0, 0, 0, 3]]).1._dstate.getD []).getD 0 0
      = ([(7 : ℚ), 0, 0, 0, 9, 100].getLast?.getD 0
          * ([(7 : ℚ), 0, 0, 0, 9, 100].getD 0 0 * 1e-3)
          - [(4 : ℚ), 0, 0, 0, 1, 0, 0, 0, 170].getLast?.getD 0
            * [(4 : ℚ), 0, 0, 0, 1, 0, 0, 0, 170].getD 0 0
            * (1 - demoRunning._f_retain.getD 0 0)) / demoRunning.V_liq
        + (matTvec [[1, 0, 0, 0, 0], [0, 1, 0, 0, 0], [0, 0, 2, 0, 0],
            [0, 0, 0, 3, 0]] [1, 2, 3, 4]).getD 0 0 :=
  dy_dt_liquid_mass_balance demoRunning demoModel false (fun _ => [])
    demoStream demoStream6 0 [7, 0, 0, 0, 9, 100]
    [4, 0, 0, 0, 1, 0, 0, 0, 170] [0, 0, 0, 0, 0, 0, 0, 0, 0]
    [[0, 0, 0, 0, 0, 3]] 5 3 [4, 0, 0, 0, 1, 0, 0, 0, 170]
    [[1, 0, 0, 0, 0], [0, 1, 0, 0, 0], [0, 0, 2, 0, 0], [0, 0, 0, 3, 0]]
    [1, 2, 3, 4] 0 rfl rfl rfl rfl rfl rfl rfl rfl rfl rfl rfl (by decide)

/-- C2. For every derivative evaluation with a bound kinetic model, the
active pressure-closure strategy is invoked with exactly the last three
entries of the rate vector to obtain `q_gas` (cached in `_q_gas`), and each
tracked biogas component's derivative equals
`-q_gas*S_gas_i/V_gas + rate_biogas_i*(V_liq/V_gas)*mass_to_mole_i` with the
mass-to-mole factors restricted to the gas-component indices. -/
theorem dy_dt_gas_balance_last_three (r : AnaerobicCSTR) (m : KineticModel)
    (hasexo : Bool) (f_exovars : ℚ → List ℚ) (gas liquid : Stream) (t : ℚ)
    (row0 QC d0 : List ℚ) (dQC_ins : List (List ℚ)) (n k : ℕ)
    (QCx : List ℚ) (M : List (List ℚ)) (rhos : List ℚ) (gidx : List ℕ)
    (i : ℕ)
    (hn : r.components.n_cmps = n) (hk : r._n_gas = some k)
    (hd : r._dstate = some d0) (hd0 : d0.length = n + k + 1)
    (hQC : QC.length = n + k + 1) (hrow : row0.length = n + 1)
    (hf : r._f_retain.length = n)
    (hQCx : QCx = if hasexo then QC ++ f_exovars t else QC)
    (hMdef : M = m.stoichio_eval (m.params_eval QCx))
    (hrhos : rhos = m.rate_function (m.params_eval QCx) QCx)
    (hM : (M.headD []).length = n)
    (hgidx : r._gas_cmp_idx = some gidx) (hglen : gidx.length = k)
    (hk3 : k = 3) (hrlen : 3 ≤ rhos.length) (hi : i < k) :
    ((dy_dt r m hasexo f_exovars gas liquid t [row0] QC
        dQC_ins).1._dstate.getD []).getD (n + i) 0
      = - (if r._fixed_P_gas then
            f_q_gas_fixed_P_headspace r (rhos.drop (rhos.length - 3))
              ((QC.drop n).take k) r.T
          else
            f_q_gas_var_P_headspace r (rhos.drop (rhos.length - 3))
              ((QC.drop n).take k) r.T).2
          * QC.getD (n + i) 0 / r.V_gas
        + (rhos.drop (rhos.length - 3)).getD i 0 * r.V_liq / r.V_gas
          * (gas_mass2mol_conversion r).getD i 0
    ∧ (dy_dt r m hasexo f_exovars gas liquid t [row0] QC dQC_ins).1._q_gas
      = (if r._fixed_P_gas then
            f_q_gas_fixed_P_headspace r (rhos.drop (rhos.length - 3))
              ((QC.drop n).take k) r.T
          else
            f_q_gas_var_P_headspace r (rhos.drop (rhos.length - 3))
              ((QC.drop n).take k) r.T).2 := by
  constructor
  · simp only [dy_dt, hd, Option.getD_some, hn, hk, List.headD_cons, ← hQCx,
      ← hMdef, ← hrhos]
    rw [getD_write_pattern_gas _ _ _ _ n k i ?hliq ?hgl hd0 ?hi2]
    case hliq =>
      rw [List.length_zipWith, length_zipWith3]
      simp only [matTvec, List.length_map, List.length_range, List.length_take,
        List.length_dropLast, hrow, hf, hQC, hM]
      omega
    case hgl =>
      rw [List.length_zipWith]
      simp only [List.length_take, List.length_drop, hQC]
      omega
    case hi2 =>
      rw [List.length_zipWith, List.length_zipWith]
      simp only [List.length_take, List.length_drop, List.length_map,
        gas_mass2mol_conversion, hgidx, Option.getD_some, hglen, hQC]
      omega
    rw [getD_zipWith _ _ _ i
          (by simp only [List.length_take, List.length_drop, hQC]
              omega)
          (by rw [List.length_zipWith]
              simp only [List.length_drop, List.length_map,
                gas_mass2mol_conversion, hgidx, Option.getD_some, hglen]
              omega),
        getD_zipWith _ _ _ i
          (by simp only [List.length_drop]
              omega)
          (by simp only [List.length_map, gas_mass2mol_conversion, hgidx,
                Option.getD_some, hglen]
              omega),
        getD_drop_take _ _ _ _ (by omega) (by omega)]
  · simp only [dy_dt, hn, hk, Option.getD_some, ← hQCx, ← hrhos]
    exact strategy_q_gas_cached r (rhos.drop (rhos.length - 3))
      ((QC.drop n).take k) r.T

/-- Witness for C2 at a concrete evaluation of the demo reactor. -/
theorem dy_dt_gas_balance_last_three_witness :
    ((dy_dt demoRunning demoModel false (fun _ => []) demoStream demoStream6 0
        [[7, 0, 0, 0, 9, 100]] [4, 0, 0, 0, 1, 0, 0, 0, 170]
        [[0, 0, 0, 0, 0, 3]]).1._dstate.getD []).getD (5 + 0) 0
      = - (if demoRunning._fixed_P_gas then
            f_q_gas_fixed_P_headspace demoRunning
              ([(1 : ℚ), 2, 3, 4].drop ([(1 : ℚ), 2, 3, 4].length - 3))
              (([(4 : ℚ), 0, 0, 0, 1, 0, 0, 0, 170].drop 5).take 3)
              demoRunning.T
          else
            f_q_gas_var_P_headspace demoRunning
              ([(1 : ℚ), 2, 3, 4].drop ([(1 : ℚ), 2, 3, 4].length - 3))
              (([(4 : ℚ), 0, 0, 0, 1, 0, 0, 0, 170].drop 5).take 3)
              demoRunning.T).2
          * [(4 : ℚ), 0, 0, 0, 1, 0, 0, 0, 170].getD (5 + 0) 0
          / demoRunning.V_gas
        + ([(1 : ℚ), 2, 3, 4].drop ([(1 : ℚ), 2, 3, 4].length - 3)).getD 0 0
          * demoRunning.V_liq / demoRunning.V_gas
          * (gas_mass2mol_conversion demoRunning).getD 0 0
    ∧ (dy_dt demoRunning demoModel false (fun _ => []) demoStream demoStream6
        0 [[7, 0, 0, 0, 9, 100]] [4, 0, 0, 0, 1, 0, 0, 0, 170]
        [[0, 0, 0, 0, 0, 3]]).1._q_gas
      = (if demoRunning._fixed_P_gas then
            f_q_gas_fixed_P_headspace demoRunning
              ([(1 : ℚ), 2, 3, 4].drop ([(1 : ℚ), 2, 3, 4].length - 3))
              (([(4 : ℚ), 0, 0, 0, 1, 0, 0, 0, 170].drop 5).take 3)
              demoRunning.T
          else
            f_q_gas_var_P_headspace demoRunning
              ([(1 : ℚ), 2, 3, 4].drop ([(1 : ℚ), 2, 3, 4].length - 3))
              (([(4 : ℚ), 0, 0, 0, 1, 0, 0, 0, 170].drop 5).take 3)
              demoRunning.T).2 :=
  dy_dt_gas_balance_last_three demoRunning demoModel false (fun _ => [])
    demoStream demoStream6 0 [7, 0, 0, 0, 9, 100]
    [4, 0, 0, 0, 1, 0, 0, 0, 170] [0, 0, 0, 0, 0, 0, 0, 0, 0]
    [[0, 0, 0, 0, 0, 3]] 5 3 [4, 0, 0, 0, 1, 0, 0, 0, 170]
    [[1, 0, 0, 0, 0], [0, 1, 0, 0, 0], [0, 0, 2, 0, 0], [0, 0, 0, 3, 0]]
    [1, 2, 3, 4] [1, 2, 3] 0 rfl rfl rfl rfl rfl rfl rfl rfl rfl rfl rfl rfl
    rfl rfl (by decide) (by decide)

/-- Witness for C10: two consecutive projector calls on the demo reactor. -/
theorem update_dstate_gas_stays_zero_witness :
    ((iterate_update_dstate [demoBound, demoBound] demoStream
        demoStream).1).dstate = some (List.replicate (5 + 1) 0)
    ∧ ((iterate_update_dstate [demoBound, demoBound] demoStream
        demoStream).1).state = demoStream.state :=
  update_dstate_gas_stays_zero demoBound [demoBound] demoStream demoStream 5
    rfl rfl

end QSDsan
